import Mathlib

/-!
Shallow embedding of the `cycle` repository's automation core
(`src/cycle/tools/base.py`, `src/cycle/tools/collection.py`,
`src/cycle/tools/computer.py`, `src/cycle/workflow_automation.py`)
and proofs of the spec claims about it.

Conventions of the embedding:
* Python `str | None` fields become `Option String`; Python truthiness of
  such a field (`if field:`) is `pyTruthy` (non-`None` and non-empty).
* Python exceptions become an explicit `PyExc` value threaded through
  `Except`; `raise` is `.error`, normal return is `.ok`.
* Python `float` arithmetic in the coordinate scaler is modelled exactly
  over `ℚ`; Python's `round` (banker's rounding, half to even) is
  `pythonRound`; Python `int()` on a non-negative value is the floor.
* In-place dict mutation in `_filter_to_n_most_recent_images` is modelled
  by a pure rebuild that visits the same blocks in the same order.
-/

/-- Python exception values relevant to this code base. -/
inductive PyExc where
  /-- Exception `cycle.tools.base.ToolError`, carrying its `message` attribute. -/
  | toolError (message : String)
  /-- Built-in `ValueError`. -/
  | valueError (message : String)
  /-- Built-in `AttributeError` (e.g. accessing `.input` on a block that has no such field). -/
  | attributeError (message : String)
  /-- Any other exception kind, identified by an opaque description. -/
  | other (info : String)
deriving DecidableEq, Repr

/-- Python truthiness of a `str | None` value: `None` and `""` are falsy. -/
def pyTruthy : Option String → Bool
  | none => false
  | some s => s ≠ ""

/-- Python `a or b` on `str | None` values: `a` when truthy, else `b`. -/
def pyOr (a b : Option String) : Option String :=
  if pyTruthy a then a else b

/-- Structure `ToolResult` from `cycle/tools/base.py`: a frozen dataclass with four
optional string fields (in declaration order `output`, `error`,
`base64_image`, `system`). -/
structure ToolResult where
  output : Option String := none
  error : Option String := none
  base64_image : Option String := none
  system : Option String := none
deriving DecidableEq, Repr

/-- Method `ToolResult.__bool__`: `any(getattr(self, field.name) for field in fields(self))`,
i.e. some field is truthy in Python's sense. -/
def ToolResult.toBool (r : ToolResult) : Bool :=
  pyTruthy r.output || pyTruthy r.error || pyTruthy r.base64_image || pyTruthy r.system

/-- Helper `combine_fields` with `concatenate=True` (the text branch of
`ToolResult.__add__`): concatenate when both sides are truthy, else
`field or other_field`. -/
def combineText (a b : Option String) : Option String :=
  if pyTruthy a && pyTruthy b then some (a.getD "" ++ b.getD "") else pyOr a b

/-- Helper `combine_fields` with `concatenate=False` (the image branch of
`ToolResult.__add__`): both sides truthy raises
`ValueError("Cannot combine tool results.")`, else `field or other_field`. -/
def combineImage (a b : Option String) : Except PyExc (Option String) :=
  if pyTruthy a && pyTruthy b then .error (.valueError "Cannot combine tool results.")
  else .ok (pyOr a b)

/-- Method `ToolResult.__add__`: merge two results field by field; the
`base64_image` branch may raise, which aborts the whole merge. -/
def ToolResult.add (a b : ToolResult) : Except PyExc ToolResult :=
  match combineImage a.base64_image b.base64_image with
  | .error e => .error e
  | .ok img =>
      .ok { output := combineText a.output b.output
            error := combineText a.error b.error
            base64_image := img
            system := combineText a.system b.system }

/-- The empty `ToolResult()` (all four fields defaulted to `None`). -/
def emptyToolResult : ToolResult := {}

/-- Result `ToolFailure(error=msg)`: a `ToolResult` whose only set field is `error`.
(`ToolFailure` subclasses `ToolResult` without adding state.) -/
def toolFailure (msg : String) : ToolResult := { error := some msg }

/-- A tool-call input dictionary value (Python `Any`): enough structure for
the inputs this code base passes around. -/
inductive PyVal where
  | str (s : String)
  | intList (l : List Int)
deriving DecidableEq, Repr

/-- A Python dict with string keys, as an insertion-ordered association
list; a later binding of the same key overwrites an earlier one. -/
def PyDict (α : Type) : Type := List (String × α)

/-- Lookup `d.get(k)`: the value of the last binding of `k`, if any. -/
def PyDict.get {α : Type} (d : PyDict α) (k : String) : Option α :=
  (d.reverse.find? (fun p => p.1 == k)).map (·.2)

instance {α : Type} [DecidableEq α] : DecidableEq (PyDict α) :=
  inferInstanceAs (DecidableEq (List (String × α)))

instance {α : Type} [Repr α] : Repr (PyDict α) :=
  inferInstanceAs (Repr (List (String × α)))

/-- An executor registered with the dispatcher: its declared wire name
(`to_params()["name"]`) and its `__call__` behaviour, which either returns a
`ToolResult` or raises. -/
structure PyTool where
  name : String
  call : PyDict PyVal → Except PyExc ToolResult

/-- Class `ToolCollection` from `cycle/tools/collection.py`: holds the tools it
was constructed from. -/
structure ToolCollection where
  tools : List PyTool

/-- Constructor `ToolCollection.__init__`: store the tools. The registry
`tool_map = {tool.to_params()["name"]: tool for tool in tools}` is a dict
comprehension, so a later tool with a duplicate name silently overwrites an
earlier one; construction never fails. -/
def mkToolCollection (tools : List PyTool) : ToolCollection := ⟨tools⟩

/-- Registry lookup `self.tool_map.get(name)`: dict-comprehension lookup — the last tool in
iteration order whose declared name matches. -/
def ToolCollection.toolMap (c : ToolCollection) (name : String) : Option PyTool :=
  c.tools.reverse.find? (fun t => t.name == name)

/-- Method `ToolCollection.run`: look the name up; unknown names yield a
`ToolFailure`; a raised `ToolError` is caught and converted to a
`ToolFailure` carrying its message; any other exception propagates. -/
def ToolCollection.run (c : ToolCollection) (name : String) (toolInput : PyDict PyVal) :
    Except PyExc ToolResult :=
  match c.toolMap name with
  | none => .ok (toolFailure ("Tool " ++ name ++ " is invalid"))
  | some tool =>
      match tool.call toolInput with
      | .ok r => .ok r
      | .error (.toolError m) => .ok (toolFailure m)
      | .error e => .error e

/-- Spec-side merge of one text-bearing field, following the (amended)
spec's words: concatenate when both sides are non-empty, take the non-empty
side when exactly one is, and otherwise the right side's value stands (an
empty-string field is dropped in favour of the other side). -/
def specMergeText (a b : Option String) : Option String :=
  if pyTruthy a then (if pyTruthy b then some (a.getD "" ++ b.getD "") else a) else b

/-- Spec-side merge of two `ToolResult`s, following the (amended) spec's
words: fails when both sides carry a non-empty image, otherwise merges the
three text fields with `specMergeText` and keeps the non-empty image side. -/
def specMerge (a b : ToolResult) : Except PyExc ToolResult :=
  if pyTruthy a.base64_image && pyTruthy b.base64_image then
    .error (.valueError "Cannot combine tool results.")
  else
    .ok { output := specMergeText a.output b.output
          error := specMergeText a.error b.error
          base64_image := pyOr a.base64_image b.base64_image
          system := specMergeText a.system b.system }

/-- Constant `MAX_WIDTH` from `cycle/utils/constants.py`. -/
def MAX_WIDTH : ℕ := 1280

/-- Python's `round`: round half to even (banker's rounding), on an exact
rational model of the float computation. -/
def pythonRound (q : ℚ) : ℤ :=
  if q - ⌊q⌋ < 1 / 2 then ⌊q⌋
  else if 1 / 2 < q - ⌊q⌋ then ⌊q⌋ + 1
  else if Even ⌊q⌋ then ⌊q⌋ else ⌊q⌋ + 1

/-- The scaling context a `ComputerTool` carries after `__init__`:
real screen geometry, scale factor, and target (API-space) geometry. -/
structure ComputerCtx where
  width : ℕ
  height : ℕ
  scale_factor : ℚ
  target_width : ℕ
  target_height : ℕ
deriving DecidableEq, Repr

/-- Constructor `ComputerTool.__init__` for a real screen of `width × height` pixels:
when the real width exceeds `MAX_WIDTH`, scale down by
`MAX_WIDTH / width` and truncate the scaled height with `int(...)`;
otherwise keep the geometry and a scale factor of `1.0`. -/
def mkComputerCtx (width height : ℕ) : ComputerCtx :=
  if MAX_WIDTH < width then
    { width := width
      height := height
      scale_factor := (MAX_WIDTH : ℚ) / width
      target_width := MAX_WIDTH
      target_height := (⌊(height : ℚ) * ((MAX_WIDTH : ℚ) / width)⌋).toNat }
  else
    { width := width
      height := height
      scale_factor := 1
      target_width := width
      target_height := height }

/-- Enumeration `ScalingSource` from `cycle/tools/computer.py`. -/
inductive ScalingSource where
  | computer
  | api
deriving DecidableEq, Repr

/-- Flag `ComputerTool._scaling_enabled` (a class attribute, always `True`). -/
def scalingEnabled : Bool := true

/-- Method `ComputerTool._scale_coordinates`: API→real multiplies each axis by
`real / target` and rounds; real→API divides by the same per-axis ratio and
rounds; each axis is rounded independently. -/
def scaleCoordinates (c : ComputerCtx) (source : ScalingSource) (x y : ℤ) : ℤ × ℤ :=
  if !scalingEnabled then (x, y)
  else
    let xFactor : ℚ := (c.width : ℚ) / (c.target_width : ℚ)
    let yFactor : ℚ := (c.height : ℚ) / (c.target_height : ℚ)
    match source with
    | .api => (pythonRound ((x : ℚ) * xFactor), pythonRound ((y : ℚ) * yFactor))
    | .computer => (pythonRound ((x : ℚ) / xFactor), pythonRound ((y : ℚ) / yFactor))

/-- The pixel dimensions of the image `ComputerTool._screenshot` returns:
the capture has the real screen's dimensions, and is resized to the target
dimensions exactly when scaling is enabled and `scale_factor < 1.0`. -/
def screenshotDims (c : ComputerCtx) : ℕ × ℕ :=
  if scalingEnabled = true ∧ c.scale_factor < 1 then (c.target_width, c.target_height)
  else (c.width, c.height)

/-- One content item inside a `tool_result` block's content list: an image
block or a text block (the only kinds `_make_api_tool_result` produces). -/
inductive TRItem where
  | image (data : String)
  | text (t : String)
deriving DecidableEq, Repr

/-- Whether a `tool_result` content item is an image block
(`content.get("type") == "image"`). -/
def TRItem.isImage : TRItem → Bool
  | .image _ => true
  | .text _ => false

/-- The `content` of a `tool_result` block: either a plain string (the
error path of `_make_api_tool_result`) or a list of content items. -/
inductive TRContent where
  | str (s : String)
  | items (l : List TRItem)
deriving DecidableEq, Repr

/-- One item of a message's content list: a `tool_result` block, a text
block, or a `tool_use` block; only `tool_result` dicts pass the pruner's
`item.get("type") == "tool_result"` filter. -/
inductive MsgItem where
  | toolResult (tool_use_id : String) (is_error : Bool) (content : TRContent)
  | textBlock (t : String)
  | toolUseBlock (id name : String) (input : PyDict PyVal)
deriving DecidableEq, Repr

/-- A message's `content`: either a plain string or a list of items. -/
inductive MsgContent where
  | str (s : String)
  | blocks (l : List MsgItem)
deriving DecidableEq, Repr

/-- A conversation message (`BetaMessageParam`): a role and content. -/
structure Message where
  role : String
  content : MsgContent
deriving DecidableEq, Repr

/-- The contents of the `tool_result` blocks of a history, in chronological
order: the flattening
`[item for message in messages for item in (content if list) if tool_result]`
projected to each block's `content`. -/
def toolResultContents (msgs : List Message) : List TRContent :=
  msgs.flatMap (fun m =>
    match m.content with
    | .str _ => []
    | .blocks l => l.filterMap (fun it =>
        match it with
        | .toolResult _ _ c => some c
        | _ => none))

/-- How many image blocks a single `tool_result` content carries; iterating
a plain string yields characters, which are not image dicts, so it counts 0. -/
def imagesInTRContent : TRContent → ℕ
  | .str _ => 0
  | .items l => (l.filter TRItem.isImage).length

/-- The pruner's `total_images`: images summed over every `tool_result`
block of the history in chronological order. -/
def totalImages (msgs : List Message) : ℕ :=
  ((toolResultContents msgs).map imagesInTRContent).sum

/-- The pruner's inner loop over one `tool_result` content list: drop an
image while `images_to_remove > 0` (decrementing), keep everything else;
returns the rebuilt list and the remaining `images_to_remove`. -/
def pruneTRItems : List TRItem → ℤ → List TRItem × ℤ
  | [], k => ([], k)
  | .image d :: rest, k =>
      if 0 < k then pruneTRItems rest (k - 1)
      else (.image d :: (pruneTRItems rest k).1, (pruneTRItems rest k).2)
  | .text t :: rest, k =>
      (.text t :: (pruneTRItems rest k).1, (pruneTRItems rest k).2)

/-- The pruner's per-block step: only list-shaped content is rebuilt
(`isinstance(tool_result.get("content"), list)` guard); a string content is
left in place and consumes nothing. -/
def pruneTRContent : TRContent → ℤ → TRContent × ℤ
  | .str s, k => (.str s, k)
  | .items l, k => (.items (pruneTRItems l k).1, (pruneTRItems l k).2)

/-- The pruner's pass over one message's items: `tool_result` blocks are
rewritten in order, threading `images_to_remove`; other items are untouched. -/
def pruneMsgItems : List MsgItem → ℤ → List MsgItem × ℤ
  | [], k => ([], k)
  | .toolResult id err c :: rest, k =>
      (.toolResult id err (pruneTRContent c k).1 :: (pruneMsgItems rest (pruneTRContent c k).2).1,
       (pruneMsgItems rest (pruneTRContent c k).2).2)
  | it :: rest, k =>
      (it :: (pruneMsgItems rest k).1, (pruneMsgItems rest k).2)

/-- The pruner's pass over the whole history. The Python code first
flattens the `tool_result` blocks and then mutates those dicts in place;
since that flattening visits messages and, within a message, items in
order, the in-place pass equals this pure front-to-back rebuild. -/
def pruneMessages : List Message → ℤ → List Message × ℤ
  | [], k => ([], k)
  | ⟨role, .str s⟩ :: rest, k =>
      (⟨role, .str s⟩ :: (pruneMessages rest k).1, (pruneMessages rest k).2)
  | ⟨role, .blocks l⟩ :: rest, k =>
      (⟨role, .blocks (pruneMsgItems l k).1⟩ :: (pruneMessages rest (pruneMsgItems l k).2).1,
       (pruneMessages rest (pruneMsgItems l k).2).2)

/-- Function `_filter_to_n_most_recent_images` from
`cycle/workflow_automation.py`: compute `images_to_remove = total - keep`
(an `int`, possibly negative) and drop that many images front-to-back. -/
def filterToNMostRecentImages (msgs : List Message) (imagesToKeep : ℕ) : List Message :=
  (pruneMessages msgs ((totalImages msgs : ℤ) - (imagesToKeep : ℤ))).1

/-- Spec-side counterpart of the inner loop, written from the spec's words
with a natural-number budget of images still to drop. -/
def dropTRItems : List TRItem → ℕ → List TRItem × ℕ
  | [], n => ([], n)
  | .image d :: rest, n =>
      if 0 < n then dropTRItems rest (n - 1)
      else (.image d :: (dropTRItems rest n).1, (dropTRItems rest n).2)
  | .text t :: rest, n =>
      (.text t :: (dropTRItems rest n).1, (dropTRItems rest n).2)

/-- Spec-side counterpart of the per-block step. -/
def dropTRContent : TRContent → ℕ → TRContent × ℕ
  | .str s, n => (.str s, n)
  | .items l, n => (.items (dropTRItems l n).1, (dropTRItems l n).2)

/-- Spec-side counterpart of the per-message pass. -/
def dropMsgItems : List MsgItem → ℕ → List MsgItem × ℕ
  | [], n => ([], n)
  | .toolResult id err c :: rest, n =>
      (.toolResult id err (dropTRContent c n).1 :: (dropMsgItems rest (dropTRContent c n).2).1,
       (dropMsgItems rest (dropTRContent c n).2).2)
  | it :: rest, n =>
      (it :: (dropMsgItems rest n).1, (dropMsgItems rest n).2)

/-- Spec-side counterpart of the pass over the whole history. -/
def dropMessages : List Message → ℕ → List Message × ℕ
  | [], n => ([], n)
  | ⟨role, .str s⟩ :: rest, n =>
      (⟨role, .str s⟩ :: (dropMessages rest n).1, (dropMessages rest n).2)
  | ⟨role, .blocks l⟩ :: rest, n =>
      (⟨role, .blocks (dropMsgItems l n).1⟩ :: (dropMessages rest (dropMsgItems l n).2).1,
       (dropMessages rest (dropMsgItems l n).2).2)

/-- Spec-side description of pruning, from the spec's words: remove the `n`
chronologically oldest image blocks across all `tool_result` blocks,
leaving every non-image content item untouched and the order of the
remaining content preserved. -/
def dropOldestImages (n : ℕ) (msgs : List Message) : List Message :=
  (dropMessages msgs n).1

/-- Number of `tool_result` blocks in a history. -/
def toolResultCount (msgs : List Message) : ℕ :=
  (toolResultContents msgs).length

/-- Shape predicate of claim C2: every `tool_result` block of the history
carries exactly one image block. -/
def EachToolResultOneImage (msgs : List Message) : Prop :=
  ∀ c ∈ toolResultContents msgs, imagesInTRContent c = 1

instance (msgs : List Message) : Decidable (EachToolResultOneImage msgs) :=
  inferInstanceAs (Decidable (∀ c ∈ toolResultContents msgs, imagesInTRContent c = 1))

/-- One content block of a parsed model response (`BetaContentBlock`): a
text block or a `tool_use` block. Only `tool_use` blocks have an `input`
attribute. -/
inductive RespBlock where
  | text (s : String)
  | toolUse (id name : String) (input : PyDict PyVal)
deriving DecidableEq, Repr

/-- Whether a response block is a `tool_use` block (`content_block.type ==
"tool_use"`). -/
def RespBlock.isToolUse : RespBlock → Bool
  | .toolUse _ _ _ => true
  | .text _ => false

/-- The guard of the forced-screenshot injection in `automate_workflow`:
`response and response.content and response.content[-1].input and
response.content[-1].input.get("action") != "screenshot"`.
The parsed message object itself is always truthy; an empty content list
short-circuits the conjunction to false; accessing `.input` on a terminal
block that is not a `tool_use` block raises `AttributeError` (the typed
response models carry no such attribute, which is why the source needs
`type: ignore[attr-defined]` there); on a `tool_use` terminal block the
guard holds when its input dict is non-empty and its `action` is not
`"screenshot"`. -/
def forcedScreenshotGuard (content : List RespBlock) : Except PyExc Bool :=
  match content.getLast? with
  | none => .ok false
  | some (.text _) =>
      .error (.attributeError "object has no attribute 'input'")
  | some (.toolUse _ _ inp) =>
      match inp with
      | [] => .ok false
      | _ :: _ =>
          match PyDict.get inp "action" with
          | some (.str "screenshot") => .ok false
          | _ => .ok true

/-- The synthetic grounding-screenshot block `automate_workflow` appends
when the guard holds (its id embeds a timestamp, abstracted here). -/
def syntheticScreenshot (ts : String) : RespBlock :=
  .toolUse ("screenshot_" ++ ts) "computer" [("action", .str "screenshot")]

/-- Observable control-flow outcome of the `automate_workflow` loop on a
scripted sequence of model responses. -/
structure LoopResult where
  /-- Number of iterations that dispatched at least one tool call. -/
  dispatchIters : ℕ
  /-- Per processed response, whether a synthetic screenshot was appended. -/
  injections : List Bool
  /-- The exception that escaped the loop, if any. -/
  raised : Option PyExc
  /-- Whether the loop hit its `if not tool_result_content: return`. -/
  cleanReturn : Bool
deriving DecidableEq, Repr

/-- Control-flow skeleton of the `while True` loop of `automate_workflow`,
driven by a scripted list of model responses (one per API round trip).
Pruning, prompt hydration and the API call itself do not influence which
branch the loop takes, and the collected `tool_result_content` is non-empty
exactly when the (possibly augmented) response contains a `tool_use` block,
so the loop's observable control flow is: evaluate the injection guard
(which may raise), append the synthetic screenshot when it holds, dispatch
each `tool_use` block in order, and return cleanly when there were none.
An exhausted script means the loop would issue another API call. -/
def runAutomationLoop : List (List RespBlock) → LoopResult
  | [] => ⟨0, [], none, false⟩
  | content :: rest =>
      match forcedScreenshotGuard content with
      | .error e => ⟨0, [], some e, false⟩
      | .ok inject =>
          if (if inject then content ++ [syntheticScreenshot "ts"] else content).any
              RespBlock.isToolUse then
            ⟨(runAutomationLoop rest).dispatchIters + 1,
             inject :: (runAutomationLoop rest).injections,
             (runAutomationLoop rest).raised,
             (runAutomationLoop rest).cleanReturn⟩
          else ⟨0, [inject], none, true⟩

/-- First scripted response of claim C1: a single `tool_use` block
requesting `left_click` at `(100, 100)`. -/
def c1Response1 : List RespBlock :=
  [.toolUse "toolu_01" "computer" [("action", .str "left_click"), ("coordinate", .intList [100, 100])]]

/-- Second scripted response of claim C1: a single `tool_use` block
requesting `screenshot`. -/
def c1Response2 : List RespBlock :=
  [.toolUse "toolu_02" "computer" [("action", .str "screenshot")]]

/-- Third scripted response of claim C1: text only. -/
def c1Response3 : List RespBlock :=
  [.text "The workflow is complete."]

/-- The scripted response sequence of claim C1. -/
def c1Responses : List (List RespBlock) :=
  [c1Response1, c1Response2, c1Response3]

/-- A concrete history with exactly 5 `tool_result` blocks, each carrying
exactly one image, interleaved with non-image content. -/
def exHistory : List Message :=
  [ ⟨"user", .str "Repeat the workflow considering the user instruction."⟩,
    ⟨"assistant", .blocks [.textBlock "Taking a screenshot.",
                           .toolUseBlock "toolu_01" "computer" [("action", .str "screenshot")]]⟩,
    ⟨"user", .blocks [.toolResult "toolu_01" false (.items [.text "ok", .image "imgA"])]⟩,
    ⟨"user", .blocks [.toolResult "toolu_02" false (.items [.image "imgB", .text "note"])]⟩,
    ⟨"user", .blocks [.toolResult "toolu_03" false (.items [.image "imgC"]),
                      .toolResult "toolu_04" false (.items [.image "imgD"])]⟩,
    ⟨"user", .blocks [.toolResult "toolu_05" false (.items [.text "last", .image "imgE"])]⟩ ]

/-- A concrete history whose total image count is 2. -/
def exSmallHistory : List Message :=
  [ ⟨"user", .str "Repeat the workflow considering the user instruction."⟩,
    ⟨"user", .blocks [.toolResult "toolu_01" false (.items [.image "imgA", .image "imgB"]),
                      .toolResult "toolu_02" true (.str "Tool firefox is invalid")]⟩ ]

/-- An executor named `computer` whose call raises the declared tool-error
kind. -/
def exToolRaisingToolError : PyTool :=
  ⟨"computer", fun _ => .error (.toolError "boom")⟩

/-- An executor named `computer` whose call raises a non-`ToolError`
exception. -/
def exToolRaisingOther : PyTool :=
  ⟨"computer", fun _ => .error (.other "RuntimeError: oops")⟩

/-- An executor named `computer` that returns an output of `"first"`. -/
def exToolFirst : PyTool :=
  ⟨"computer", fun _ => .ok { output := some "first" }⟩

/-- A second executor also named `computer`, returning `"second"`. -/
def exToolSecond : PyTool :=
  ⟨"computer", fun _ => .ok { output := some "second" }⟩

/-- A collection holding the `ToolError`-raising executor. -/
def exCollectionA : ToolCollection := mkToolCollection [exToolRaisingToolError]

/-- A collection holding the executor raising a foreign exception. -/
def exCollectionB : ToolCollection := mkToolCollection [exToolRaisingOther]

/-- A collection constructed from two executors that declare the same name. -/
def exDupCollection : ToolCollection := mkToolCollection [exToolFirst, exToolSecond]

theorem combineText_eq_specMergeText (a b : Option String) :
    combineText a b = specMergeText a b := by
  unfold combineText specMergeText pyOr
  by_cases ha : pyTruthy a <;> by_cases hb : pyTruthy b <;> simp [ha, hb]

theorem pyOr_none_right_of_ne (x : Option String) (h : x ≠ some "") :
    pyOr x none = x := by
  cases x with
  | none => rfl
  | some s =>
      have hs : s ≠ "" := fun hs => h (by rw [hs])
      simp [pyOr, pyTruthy, hs]

/-- C4: dispatching a name absent from the registry returns a Failure
`ToolResult` whose error text names the missing tool, and never raises
(the dispatcher returns normally). -/
theorem c4_unknown_tool_failure (c : ToolCollection) (name : String)
    (inp : PyDict PyVal) (h : c.toolMap name = none) :
    c.run name inp = .ok (toolFailure ("Tool " ++ name ++ " is invalid")) := by
  simp [ToolCollection.run, h]

/-- Witness for C4 at the empty registry and the name `firefox`. -/
theorem c4_witness :
    (mkToolCollection []).run "firefox" [] = .ok (toolFailure "Tool firefox is invalid") :=
  c4_unknown_tool_failure (mkToolCollection []) "firefox" [] rfl

/-- C3: for a registered tool, a raised declared tool error (`ToolError`)
is converted into a Failure `ToolResult` carrying its message and never
propagates, while any other raised exception propagates unmodified. -/
theorem c3_tool_error_boundary (c : ToolCollection) (name : String)
    (inp : PyDict PyVal) (t : PyTool) (hfound : c.toolMap name = some t) :
    (∀ m, t.call inp = .error (.toolError m) → c.run name inp = .ok (toolFailure m)) ∧
    (∀ e, t.call inp = .error e → (∀ m, e ≠ PyExc.toolError m) → c.run name inp = .error e) := by
  constructor
  · intro m hm
    simp [ToolCollection.run, hfound, hm]
  · intro e he hne
    cases e with
    | toolError m => exact absurd rfl (hne m)
    | valueError m => simp [ToolCollection.run, hfound, he]
    | attributeError m => simp [ToolCollection.run, hfound, he]
    | other s => simp [ToolCollection.run, hfound, he]

/-- Witness for C3: a registered `computer` executor raising
`ToolError("boom")` yields a Failure carrying `boom`; one raising a foreign
`RuntimeError` propagates it unmodified. -/
theorem c3_witness :
    exCollectionA.run "computer" [] = .ok (toolFailure "boom") ∧
    exCollectionB.run "computer" [] = .error (.other "RuntimeError: oops") :=
  ⟨(c3_tool_error_boundary exCollectionA "computer" [] exToolRaisingToolError rfl).1
      "boom" rfl,
   (c3_tool_error_boundary exCollectionB "computer" [] exToolRaisingOther rfl).2
      (.other "RuntimeError: oops") rfl (fun _ h => PyExc.noConfusion h)⟩

/-- Counterexample to C5 as stated (reading "set" as non-`None`): with
`a.output = ""` set and `b.output` unset, the merge does not take the set
side — the empty string is dropped and the merged `output` is unset; and
with both sides carrying an image (one of them the empty payload), the
merge does not fail — it silently keeps one image. -/
theorem c5_counterexample :
    ToolResult.add { output := some "" } {} = .ok {} ∧
    (ToolResult.mk (some "") none none none).output.isSome = true ∧
    (ToolResult.mk none none none none).output = none ∧
    ToolResult.add { base64_image := some "" } { base64_image := some "img" } =
      .ok { base64_image := some "img" } :=
  ⟨rfl, rfl, rfl, rfl⟩

/-- C5 (amended): merging concatenates a text-bearing field when both
sides are non-empty, keeps the non-empty side when at most one is
(an empty-string field is dropped in favour of the other side), and fails
with `ValueError` exactly when both sides carry a non-empty image — as
captured by `specMerge`, written from the amended spec's words. -/
theorem c5_merge_matches_spec (a b : ToolResult) : a.add b = specMerge a b := by
  unfold ToolResult.add specMerge combineImage
  by_cases hab : pyTruthy a.base64_image && pyTruthy b.base64_image <;>
    simp [hab, combineText_eq_specMergeText]

/-- Counterexample to C7 as stated (reading "set" as non-`None`): a
`ToolResult` whose `output` is the empty string has a set field yet is
falsy. -/
theorem c7_counterexample :
    ToolResult.toBool { output := some "" } = false ∧
    (ToolResult.mk (some "") none none none).output.isSome = true :=
  ⟨rfl, rfl⟩

/-- C7 (amended): a `ToolResult` is truthy iff at least one of its four
fields is non-empty (truthy in Python's sense). -/
theorem c7_truthiness (r : ToolResult) :
    r.toBool = true ↔
      (pyTruthy r.output = true ∨ pyTruthy r.error = true ∨
       pyTruthy r.base64_image = true ∨ pyTruthy r.system = true) := by
  simp [ToolResult.toBool, or_assoc]

/-- Counterexample to C9 as stated: the empty `ToolResult` is not a
two-sided identity — merging `ToolResult(output="")` with the empty result
on the right loses the empty-string field, giving a different value. -/
theorem c9_counterexample :
    ToolResult.add { output := some "" } emptyToolResult = .ok emptyToolResult ∧
    ({ output := some "" } : ToolResult) ≠ emptyToolResult :=
  ⟨rfl, by decide⟩

/-- C9 (amended): the empty `ToolResult` is a left identity of the merge
for every result, and a right identity for every result none of whose
fields is the empty string. -/
theorem c9_empty_identity :
    (∀ r : ToolResult, emptyToolResult.add r = .ok r) ∧
    (∀ r : ToolResult, r.output ≠ some "" → r.error ≠ some "" →
      r.base64_image ≠ some "" → r.system ≠ some "" →
      r.add emptyToolResult = .ok r) := by
  constructor
  · intro r
    cases r with
    | mk o e i s =>
        simp [ToolResult.add, combineImage, combineText, emptyToolResult, pyTruthy, pyOr]
  · intro r h1 h2 h3 h4
    cases r with
    | mk o e i s =>
        simp [ToolResult.add, combineImage, combineText, emptyToolResult, pyTruthy,
          pyOr_none_right_of_ne o h1, pyOr_none_right_of_ne e h2,
          pyOr_none_right_of_ne i h3, pyOr_none_right_of_ne s h4]

/-- Witness for C9 at a result with non-empty `output` and image. -/
theorem c9_witness :
    ToolResult.add { output := some "out", base64_image := some "img" } emptyToolResult =
      .ok { output := some "out", base64_image := some "img" } :=
  c9_empty_identity.2 { output := some "out", base64_image := some "img" }
    (by decide) (by decide) (by decide) (by decide)

/-- Counterexample to C8 as stated: constructing the dispatcher from two
executors that both declare the name `computer` is not rejected — the
collection is built, and its registry silently serves the second executor
(whose behaviour observably differs from the first). -/
theorem c8_counterexample :
    exToolFirst.name = exToolSecond.name ∧
    exDupCollection.toolMap "computer" = some exToolSecond ∧
    exDupCollection.run "computer" [] = .ok { output := some "second" } ∧
    ToolResult.mk (some "second") none none none ≠ ToolResult.mk (some "first") none none none :=
  ⟨rfl, rfl, rfl, by decide⟩

/-- C8 (amended): the registry keys are exactly the executors' declared
names, but duplicate names are not rejected at construction — the last
executor declaring a name silently overwrites the earlier ones in the
registry. -/
theorem c8_registry_shadowing (ts : List PyTool) (n : String) :
    (((mkToolCollection ts).toolMap n).isSome = true ↔ ∃ t ∈ ts, t.name = n) ∧
    (∀ pre t post, ts = pre ++ t :: post → t.name = n →
      (∀ u ∈ post, u.name ≠ n) → (mkToolCollection ts).toolMap n = some t) := by
  constructor
  · simp [ToolCollection.toolMap, mkToolCollection]
  · intro pre t post hts htn hpost
    subst hts
    have hnone : post.reverse.find? (fun u => u.name == n) = none := by
      rw [List.find?_eq_none]
      intro x hx
      simp only [List.mem_reverse] at hx
      simpa using hpost x hx
    have ht : [t].find? (fun u => u.name == n) = some t :=
      List.find?_cons_of_pos _ (by simp [htn])
    unfold ToolCollection.toolMap mkToolCollection
    rw [List.reverse_append, List.reverse_cons, List.find?_append, List.find?_append,
      hnone, ht]
    rfl

/-- Witness for C8 (amended) at the duplicate-name collection: the name
`computer` is registered, and lookup yields the second executor. -/
theorem c8_witness :
    ((mkToolCollection [exToolFirst, exToolSecond]).toolMap "computer").isSome = true ∧
    (mkToolCollection [exToolFirst, exToolSecond]).toolMap "computer" = some exToolSecond :=
  ⟨(c8_registry_shadowing [exToolFirst, exToolSecond] "computer").1.mpr
      ⟨exToolSecond, List.mem_cons_of_mem _ (List.mem_cons_self _ _), rfl⟩,
   (c8_registry_shadowing [exToolFirst, exToolSecond] "computer").2
      [exToolFirst] exToolSecond [] rfl rfl (fun u hu => absurd hu (List.not_mem_nil u))⟩

/-- C1 (the code evaluated on the claim's response script): the first
response (terminal block `left_click`) gets a synthetic screenshot
appended, the second (terminal block already `screenshot`) does not, and
both dispatch tools; but on the third, text-only response the loop does
not terminate cleanly — evaluating the injection guard accesses `.input`
on a text block and raises `AttributeError`, so the run aborts after
exactly 2 tool-dispatching iterations without reaching the termination
return. -/
theorem c1_loop_trace :
    runAutomationLoop c1Responses =
      { dispatchIters := 2, injections := [true, false],
        raised := some (.attributeError "object has no attribute 'input'"),
        cleanReturn := false } := by
  rfl

theorem pruneTRItems_nonpos : ∀ (l : List TRItem) (k : ℤ), k ≤ 0 →
    pruneTRItems l k = (l, k)
  | [], _, _ => rfl
  | .image d :: rest, k, hk => by
      have hlt : ¬ 0 < k := by omega
      simp [pruneTRItems, hlt, pruneTRItems_nonpos rest k hk]
  | .text t :: rest, k, hk => by
      simp [pruneTRItems, pruneTRItems_nonpos rest k hk]

theorem pruneTRContent_nonpos (c : TRContent) (k : ℤ) (hk : k ≤ 0) :
    pruneTRContent c k = (c, k) := by
  cases c with
  | str s => rfl
  | items l => simp [pruneTRContent, pruneTRItems_nonpos l k hk]

theorem pruneMsgItems_nonpos : ∀ (l : List MsgItem) (k : ℤ), k ≤ 0 →
    pruneMsgItems l k = (l, k)
  | [], _, _ => rfl
  | .toolResult id err c :: rest, k, hk => by
      simp [pruneMsgItems, pruneTRContent_nonpos c k hk, pruneMsgItems_nonpos rest k hk]
  | .textBlock t :: rest, k, hk => by
      simp [pruneMsgItems, pruneMsgItems_nonpos rest k hk]
  | .toolUseBlock i nm inp :: rest, k, hk => by
      simp [pruneMsgItems, pruneMsgItems_nonpos rest k hk]

theorem pruneMessages_nonpos : ∀ (msgs : List Message) (k : ℤ), k ≤ 0 →
    pruneMessages msgs k = (msgs, k)
  | [], _, _ => rfl
  | ⟨role, .str s⟩ :: rest, k, hk => by
      simp [pruneMessages, pruneMessages_nonpos rest k hk]
  | ⟨role, .blocks l⟩ :: rest, k, hk => by
      simp [pruneMessages, pruneMsgItems_nonpos l k hk, pruneMessages_nonpos rest k hk]

theorem pruneTRItems_natCast : ∀ (l : List TRItem) (n : ℕ),
    pruneTRItems l (n : ℤ) = ((dropTRItems l n).1, ((dropTRItems l n).2 : ℤ))
  | [], _ => rfl
  | .image d :: rest, n => by
      by_cases hn : 0 < n
      · have hz : (0 : ℤ) < (n : ℤ) := by exact_mod_cast hn
        have hcast : (n : ℤ) - 1 = ((n - 1 : ℕ) : ℤ) := by omega
        simp only [pruneTRItems, dropTRItems]
        rw [if_pos hz, if_pos hn, hcast, pruneTRItems_natCast rest (n - 1)]
      · have hz : ¬ (0 : ℤ) < (n : ℤ) := by
          simp only [not_lt] at hn ⊢
          exact_mod_cast hn
        simp only [pruneTRItems, dropTRItems]
        rw [if_neg hz, if_neg hn, pruneTRItems_natCast rest n]
  | .text t :: rest, n => by
      simp [pruneTRItems, dropTRItems, pruneTRItems_natCast rest n]

theorem pruneTRContent_natCast (c : TRContent) (n : ℕ) :
    pruneTRContent c (n : ℤ) = ((dropTRContent c n).1, ((dropTRContent c n).2 : ℤ)) := by
  cases c with
  | str s => rfl
  | items l => simp [pruneTRContent, dropTRContent, pruneTRItems_natCast l n]

theorem pruneMsgItems_natCast : ∀ (l : List MsgItem) (n : ℕ),
    pruneMsgItems l (n : ℤ) = ((dropMsgItems l n).1, ((dropMsgItems l n).2 : ℤ))
  | [], _ => rfl
  | .toolResult id err c :: rest, n => by
      simp [pruneMsgItems, dropMsgItems, pruneTRContent_natCast c n,
        pruneMsgItems_natCast rest (dropTRContent c n).2]
  | .textBlock t :: rest, n => by
      simp [pruneMsgItems, dropMsgItems, pruneMsgItems_natCast rest n]
  | .toolUseBlock i nm inp :: rest, n => by
      simp [pruneMsgItems, dropMsgItems, pruneMsgItems_natCast rest n]

theorem pruneMessages_natCast : ∀ (msgs : List Message) (n : ℕ),
    pruneMessages msgs (n : ℤ) = ((dropMessages msgs n).1, ((dropMessages msgs n).2 : ℤ))
  | [], _ => rfl
  | ⟨role, .str s⟩ :: rest, n => by
      simp [pruneMessages, dropMessages, pruneMessages_natCast rest n]
  | ⟨role, .blocks l⟩ :: rest, n => by
      simp [pruneMessages, dropMessages, pruneMsgItems_natCast l n,
        pruneMessages_natCast rest (dropMsgItems l n).2]

theorem sum_map_ones {α : Type} (f : α → ℕ) : ∀ (l : List α),
    (∀ c ∈ l, f c = 1) → (l.map f).sum = l.length
  | [], _ => rfl
  | c :: rest, h => by
      have h1 := h c (List.mem_cons_self c rest)
      have h2 := sum_map_ones f rest (fun x hx => h x (List.mem_cons_of_mem c hx))
      simp only [List.map_cons, List.sum_cons, List.length_cons, h1, h2]
      omega

theorem totalImages_of_each_one (msgs : List Message) (h : EachToolResultOneImage msgs) :
    totalImages msgs = toolResultCount msgs :=
  sum_map_ones imagesInTRContent (toolResultContents msgs) h

theorem filter_eq_dropOldest (msgs : List Message) (K : ℕ) :
    filterToNMostRecentImages msgs K =
      dropOldestImages ((totalImages msgs : ℤ) - (K : ℤ)).toNat msgs := by
  unfold filterToNMostRecentImages dropOldestImages
  rcases le_or_lt (K : ℤ) (totalImages msgs : ℤ) with hle | hlt
  · have hcast : (totalImages msgs : ℤ) - (K : ℤ) =
        ((((totalImages msgs : ℤ) - (K : ℤ)).toNat : ℕ) : ℤ) := by omega
    have h := pruneMessages_natCast msgs (((totalImages msgs : ℤ) - (K : ℤ)).toNat)
    rw [← hcast] at h
    rw [h]
  · have hz : pruneMessages msgs ((0 : ℕ) : ℤ) =
        ((dropMessages msgs 0).1, ((dropMessages msgs 0).2 : ℤ)) :=
      pruneMessages_natCast msgs 0
    rw [Nat.cast_zero] at hz
    have hz0 : pruneMessages msgs 0 = (msgs, 0) := pruneMessages_nonpos msgs 0 le_rfl
    have hdrop : (dropMessages msgs 0).1 = msgs := congrArg Prod.fst (hz.symm.trans hz0)
    have htn : ((totalImages msgs : ℤ) - (K : ℤ)).toNat = 0 := by omega
    rw [htn, hdrop, pruneMessages_nonpos msgs _ (by omega)]

/-- C2: on any history with exactly 5 `tool_result` blocks each carrying
exactly one image, pruning with a retention budget of 2 removes exactly
the 3 chronologically oldest image blocks and leaves everything else (the
2 newest images and every non-image item) in place and in order — the
result equals the spec-side `dropOldestImages 3`; and on any history whose
total image count is at most the budget, pruning leaves the history
unchanged. -/
theorem c2_prune_history :
    (∀ msgs : List Message, toolResultCount msgs = 5 → EachToolResultOneImage msgs →
      filterToNMostRecentImages msgs 2 = dropOldestImages 3 msgs) ∧
    (∀ (msgs : List Message) (K : ℕ), totalImages msgs ≤ K →
      filterToNMostRecentImages msgs K = msgs) := by
  constructor
  · intro msgs h5 h1
    have ht : totalImages msgs = 5 := (totalImages_of_each_one msgs h1).trans h5
    have h := filter_eq_dropOldest msgs 2
    rw [ht] at h
    have h3 : (((5 : ℕ) : ℤ) - ((2 : ℕ) : ℤ)).toNat = 3 := by decide
    rw [h3] at h
    exact h
  · intro msgs K hK
    unfold filterToNMostRecentImages
    rw [pruneMessages_nonpos msgs _ (by omega)]

/-- Witness for C2: the concrete five-block history is pruned to its
spec-side description, and a history with 2 images survives a budget of 2
unchanged. -/
theorem c2_witness :
    filterToNMostRecentImages exHistory 2 = dropOldestImages 3 exHistory ∧
    filterToNMostRecentImages exSmallHistory 2 = exSmallHistory :=
  ⟨c2_prune_history.1 exHistory (by decide) (by decide),
   c2_prune_history.2 exSmallHistory 2 (by decide)⟩

theorem mkComputerCtx_width (w h : ℕ) : (mkComputerCtx w h).width = w := by
  unfold mkComputerCtx
  split <;> rfl

theorem mkComputerCtx_height (w h : ℕ) : (mkComputerCtx w h).height = h := by
  unfold mkComputerCtx
  split <;> rfl

theorem mkComputerCtx_target_width_le (w h : ℕ) : (mkComputerCtx w h).target_width ≤ w := by
  unfold mkComputerCtx
  split
  next hlt => exact le_of_lt hlt
  next => exact le_refl w

theorem mkComputerCtx_target_width_le_max (w h : ℕ) :
    (mkComputerCtx w h).target_width ≤ MAX_WIDTH := by
  unfold mkComputerCtx
  split
  next => exact le_refl MAX_WIDTH
  next hge => exact not_lt.mp hge

theorem mkComputerCtx_target_width_pos (w h : ℕ) (hw : 0 < w) :
    0 < (mkComputerCtx w h).target_width := by
  unfold mkComputerCtx
  split
  next => norm_num [MAX_WIDTH]
  next => exact hw

theorem mkComputerCtx_target_height_le (w h : ℕ) : (mkComputerCtx w h).target_height ≤ h := by
  unfold mkComputerCtx
  split
  next hlt =>
    have hw0 : (0 : ℚ) < (w : ℚ) := by
      have hw : 0 < w := lt_trans (by norm_num [MAX_WIDTH]) hlt
      exact_mod_cast hw
    have hq : (MAX_WIDTH : ℚ) / (w : ℚ) ≤ 1 :=
      div_le_one_of_le (by exact_mod_cast le_of_lt hlt) (le_of_lt hw0)
    have hmul : (h : ℚ) * ((MAX_WIDTH : ℚ) / (w : ℚ)) ≤ (h : ℚ) :=
      mul_le_of_le_one_right (by positivity) hq
    have hfl : ⌊(h : ℚ) * ((MAX_WIDTH : ℚ) / (w : ℚ))⌋ ≤ (h : ℤ) := by
      calc ⌊(h : ℚ) * ((MAX_WIDTH : ℚ) / (w : ℚ))⌋ ≤ ⌊(h : ℚ)⌋ := Int.floor_le_floor hmul
        _ = (h : ℤ) := Int.floor_natCast h
    exact Int.toNat_le.mpr hfl
  next => exact le_refl h

theorem mkComputerCtx_scale_le_one (w h : ℕ) : (mkComputerCtx w h).scale_factor ≤ 1 := by
  unfold mkComputerCtx
  split
  next hlt =>
    have hw0 : (0 : ℚ) < (w : ℚ) := by
      have hw : 0 < w := lt_trans (by norm_num [MAX_WIDTH]) hlt
      exact_mod_cast hw
    exact div_le_one_of_le (by exact_mod_cast le_of_lt hlt) (le_of_lt hw0)
  next => exact le_refl 1

theorem screenshotDims_le (w h : ℕ) :
    (screenshotDims (mkComputerCtx w h)).1 ≤ (mkComputerCtx w h).width ∧
    (screenshotDims (mkComputerCtx w h)).2 ≤ (mkComputerCtx w h).height := by
  unfold screenshotDims
  by_cases hs : (mkComputerCtx w h).scale_factor < 1
  · rw [if_pos ⟨rfl, hs⟩]
    constructor
    · rw [mkComputerCtx_width]
      exact mkComputerCtx_target_width_le w h
    · rw [mkComputerCtx_height]
      exact mkComputerCtx_target_height_le w h
  · rw [if_neg (fun hc => hs hc.2)]
    exact ⟨le_refl _, le_refl _⟩

theorem abs_pythonRound_sub_le (q : ℚ) : |(pythonRound q : ℚ) - q| ≤ 1 / 2 := by
  have h1 : ((⌊q⌋ : ℤ) : ℚ) ≤ q := Int.floor_le q
  have h2 : q < ((⌊q⌋ : ℤ) : ℚ) + 1 := Int.lt_floor_add_one q
  unfold pythonRound
  by_cases hA : q - ((⌊q⌋ : ℤ) : ℚ) < 1 / 2
  · rw [if_pos hA, abs_le]
    constructor <;> linarith
  · have hA' : 1 / 2 ≤ q - ((⌊q⌋ : ℤ) : ℚ) := not_lt.mp hA
    rw [if_neg hA]
    by_cases hB : 1 / 2 < q - ((⌊q⌋ : ℤ) : ℚ)
    · rw [if_pos hB, abs_le]
      push_cast
      constructor <;> linarith
    · have hB' : q - ((⌊q⌋ : ℤ) : ℚ) ≤ 1 / 2 := not_lt.mp hB
      rw [if_neg hB]
      by_cases hC : Even ⌊q⌋
      · rw [if_pos hC, abs_le]
        constructor <;> linarith
      · rw [if_neg hC, abs_le]
        push_cast
        constructor <;> linarith

theorem pythonRound_roundTrip (f : ℚ) (hf : 1 ≤ f) (x : ℤ) :
    (pythonRound ((pythonRound ((x : ℚ) * f) : ℚ) / f) - x).natAbs ≤ 1 := by
  have hf0 : (0 : ℚ) < f := lt_of_lt_of_le one_pos hf
  have h1 : |(pythonRound ((x : ℚ) * f) : ℚ) - (x : ℚ) * f| ≤ 1 / 2 :=
    abs_pythonRound_sub_le _
  set r1 : ℤ := pythonRound ((x : ℚ) * f) with hr1def
  have h2 : |(r1 : ℚ) / f - (x : ℚ)| ≤ 1 / 2 := by
    have heq : (r1 : ℚ) / f - (x : ℚ) = ((r1 : ℚ) - (x : ℚ) * f) / f := by
      field_simp
      ring
    rw [heq, abs_div, abs_of_pos hf0]
    have hstep : |(r1 : ℚ) - (x : ℚ) * f| / f ≤ (1 / 2) / f :=
      (div_le_div_right hf0).mpr h1
    have hstep2 : (1 / 2 : ℚ) / f ≤ 1 / 2 := div_le_self (by norm_num) hf
    linarith
  have h3 : |(pythonRound ((r1 : ℚ) / f) : ℚ) - (r1 : ℚ) / f| ≤ 1 / 2 :=
    abs_pythonRound_sub_le _
  have h4 : |(pythonRound ((r1 : ℚ) / f) : ℚ) - (x : ℚ)| ≤ 1 := by
    have habs := abs_add ((pythonRound ((r1 : ℚ) / f) : ℚ) - (r1 : ℚ) / f)
      ((r1 : ℚ) / f - (x : ℚ))
    have heq2 : (pythonRound ((r1 : ℚ) / f) : ℚ) - (r1 : ℚ) / f +
        ((r1 : ℚ) / f - (x : ℚ)) = (pythonRound ((r1 : ℚ) / f) : ℚ) - (x : ℚ) := by
      ring
    rw [heq2] at habs
    linarith
  have h5 : |((pythonRound ((r1 : ℚ) / f) - x : ℤ) : ℚ)| ≤ 1 := by
    push_cast
    exact h4
  have h6 : |(pythonRound ((r1 : ℚ) / f) - x : ℤ)| ≤ 1 := by
    exact_mod_cast h5
  rw [Int.abs_eq_natAbs] at h6
  omega

/-- C10: for every real screen geometry, the scaling context computed at
construction satisfies `scale_factor ≤ 1`, `target_width ≤ MAX_WIDTH`,
`target_width ≤ width` and `target_height ≤ height`; consequently the
screenshot never upscales the capture, and it resizes only when
`scale_factor < 1` (otherwise the capture keeps the real dimensions). -/
theorem c10_scaling_invariants (w h : ℕ) :
    (mkComputerCtx w h).scale_factor ≤ 1 ∧
    (mkComputerCtx w h).target_width ≤ MAX_WIDTH ∧
    (mkComputerCtx w h).target_width ≤ w ∧
    (mkComputerCtx w h).target_height ≤ h ∧
    (screenshotDims (mkComputerCtx w h)).1 ≤ (mkComputerCtx w h).width ∧
    (screenshotDims (mkComputerCtx w h)).2 ≤ (mkComputerCtx w h).height ∧
    ((mkComputerCtx w h).scale_factor < 1 ∨
      screenshotDims (mkComputerCtx w h) =
        ((mkComputerCtx w h).width, (mkComputerCtx w h).height)) := by
  refine ⟨mkComputerCtx_scale_le_one w h, mkComputerCtx_target_width_le_max w h,
    mkComputerCtx_target_width_le w h, mkComputerCtx_target_height_le w h,
    (screenshotDims_le w h).1, (screenshotDims_le w h).2, ?_⟩
  by_cases hs : (mkComputerCtx w h).scale_factor < 1
  · exact Or.inl hs
  · refine Or.inr ?_
    unfold screenshotDims
    rw [if_neg (fun hc => hs hc.2)]

/-- C6: for every in-bounds API-space coordinate pair, scaling API→real
and then real→API returns a pair whose components each differ from the
original by at most 1 (rounding is applied independently per axis). -/
theorem c6_coordinate_roundtrip (w h : ℕ) (x y : ℤ)
    (hw : 0 < w) (hth : 0 < (mkComputerCtx w h).target_height)
    (hx0 : 0 ≤ x) (hy0 : 0 ≤ y)
    (hx : x < ((mkComputerCtx w h).target_width : ℤ))
    (hy : y < ((mkComputerCtx w h).target_height : ℤ)) :
    ((scaleCoordinates (mkComputerCtx w h) .computer
        (scaleCoordinates (mkComputerCtx w h) .api x y).1
        (scaleCoordinates (mkComputerCtx w h) .api x y).2).1 - x).natAbs ≤ 1 ∧
    ((scaleCoordinates (mkComputerCtx w h) .computer
        (scaleCoordinates (mkComputerCtx w h) .api x y).1
        (scaleCoordinates (mkComputerCtx w h) .api x y).2).2 - y).natAbs ≤ 1 := by
  have htw : 0 < (mkComputerCtx w h).target_width := mkComputerCtx_target_width_pos w h hw
  have hfx : 1 ≤ ((mkComputerCtx w h).width : ℚ) / ((mkComputerCtx w h).target_width : ℚ) := by
    rw [one_le_div (by exact_mod_cast htw), mkComputerCtx_width]
    exact_mod_cast mkComputerCtx_target_width_le w h
  have hfy : 1 ≤ ((mkComputerCtx w h).height : ℚ) / ((mkComputerCtx w h).target_height : ℚ) := by
    rw [one_le_div (by exact_mod_cast hth), mkComputerCtx_height]
    exact_mod_cast mkComputerCtx_target_height_le w h
  simp only [scaleCoordinates, scalingEnabled, Bool.not_true, Bool.false_eq_true, if_false]
  exact ⟨pythonRound_roundTrip _ hfx x, pythonRound_roundTrip _ hfy y⟩

/-- Witness for C6 on a 2560×1440 screen at the API point (100, 100). -/
theorem c6_witness :
    ((scaleCoordinates (mkComputerCtx 2560 1440) .computer
        (scaleCoordinates (mkComputerCtx 2560 1440) .api 100 100).1
        (scaleCoordinates (mkComputerCtx 2560 1440) .api 100 100).2).1 - 100).natAbs ≤ 1 ∧
    ((scaleCoordinates (mkComputerCtx 2560 1440) .computer
        (scaleCoordinates (mkComputerCtx 2560 1440) .api 100 100).1
        (scaleCoordinates (mkComputerCtx 2560 1440) .api 100 100).2).2 - 100).natAbs ≤ 1 :=
  c6_coordinate_roundtrip 2560 1440 100 100 (by norm_num)
    (by norm_num [mkComputerCtx, MAX_WIDTH]) (by norm_num) (by norm_num)
    (by norm_num [mkComputerCtx, MAX_WIDTH]) (by norm_num [mkComputerCtx, MAX_WIDTH])
